import Mathlib

/-!
Shallow embedding of `src/flash.py` (ESP32 provisioning kiosk) and proofs
about its orchestration logic: config store, counter store, port
enumeration, baud negotiation, the flash stage pipeline, and progress
parsing.  Presentation-only concerns (widget layout, colors, sounds) are
not modelled; button enabled/disabled state is, because the control flow
reads it.
-/

namespace Flash

/-! ## Config store (settings.json) -/

/-- Values stored in the settings.json configuration record. -/
inductive JVal
  | num (n : Int)
  | str (s : String)
deriving DecidableEq

/-- Models Python `cfg.get(key)` on the config dict, rendered as an
association list in insertion order. -/
def cfgGet (key : String) : List (String × JVal) → Option JVal
  | [] => none
  | (k, v) :: rest => if k = key then some v else cfgGet key rest

/-- Models `cfg[key] = value`: replace the value in place when the key is
present, append the pair otherwise (CPython dict semantics). -/
def updateKey : List (String × JVal) → String → JVal → List (String × JVal)
  | [], k, v => [(k, v)]
  | (k', v') :: rest, k, v =>
      if k' = k then (k', v) :: rest else (k', v') :: updateKey rest k v

/-- Serialization of one config value, as json.dump renders it.  String
escaping is elided: the keys and values this program stores contain no
characters that need escapes. -/
def dumpVal : JVal → String
  | .num n => toString n
  | .str s => "\"" ++ s ++ "\""

/-- Entries of the record as json.dump(cfg, indent=2) lays them out. -/
def dumpEntries : List (String × JVal) → String
  | [] => ""
  | [(k, v)] => "  \"" ++ k ++ "\": " ++ dumpVal v
  | (k, v) :: rest => "  \"" ++ k ++ "\": " ++ dumpVal v ++ ",\n" ++ dumpEntries rest

/-- Models json.dump(cfg, cfg_file, indent=2): the whole record serialized. -/
def dumpCfg (cfg : List (String × JVal)) : String :=
  if cfg.isEmpty then "\x7b\x7d" else "\x7b\n" ++ dumpEntries cfg ++ "\n\x7d"

/-- On-disk contents of settings.json observable while `update_config`
runs: `open(CONFIG_PATH, "w")` truncates the file to empty, and only then
does json.dump write the new serialized record. -/
def update_config_disk_states (cfg : List (String × JVal)) (k : String) (v : JVal) :
    List String :=
  ["", dumpCfg (updateKey cfg k v)]

/-- Spec-side predicate (from the spec's words, for comparison with the
code): a file update is an atomic replace when every on-disk state
observable during the update is either the old or the new content. -/
def atomicReplace (old new : String) (states : List String) : Bool :=
  states.all (fun st => st == old || st == new)

/-! ## Counter store (load_count) -/

/-- ASCII whitespace as recognized by Python's str.strip() and int()
(the files and tool output this program reads are ASCII). -/
def pySpace (c : Char) : Bool :=
  c == ' ' || c == '\t' || c == '\n' || c == '\r' || c == '\x0b' || c == '\x0c'

/-- Strip `pySpace` characters from both ends of a character list. -/
def stripChars (cs : List Char) : List Char :=
  ((cs.dropWhile pySpace).reverse.dropWhile pySpace).reverse

/-- Models Python str.strip(). -/
def pyStrip (s : String) : String := ⟨stripChars s.data⟩

/-- Numeric value of an ASCII digit character. -/
def digitVal (c : Char) : Nat := c.toNat - 48

/-- Digits of an integer literal as accepted by Python's int(): further
digits, with single underscores allowed only between digits. -/
def udigitsAux (acc : Nat) : List Char → Option Nat
  | [] => some acc
  | '_' :: c :: cs => if c.isDigit then udigitsAux (acc * 10 + digitVal c) cs else none
  | c :: cs => if c.isDigit then udigitsAux (acc * 10 + digitVal c) cs else none

/-- A non-empty digit run (with optional single internal underscores). -/
def parseUDigits : List Char → Option Nat
  | [] => none
  | c :: cs => if c.isDigit then udigitsAux (digitVal c) cs else none

/-- Models Python int(str): optional surrounding whitespace, an optional
sign, then digits; anything else raises ValueError, rendered as `none`. -/
def pyInt (s : String) : Option Int :=
  match stripChars s.data with
  | '+' :: rest => (parseUDigits rest).map (fun n => (n : Int))
  | '-' :: rest => (parseUDigits rest).map (fun n => -(n : Int))
  | rest => (parseUDigits rest).map (fun n => (n : Int))

/-- Models FlashApp.load_count: read COUNT_FILE (`none` when the open
itself fails, e.g. the file is missing or the path is unset), then
int(content.strip()); the bare `except` turns every failure into 0. -/
def load_count (file : Option String) : Int :=
  match file with
  | none => 0
  | some content => (pyInt (pyStrip content)).getD 0

/-! ## Progress parsing -/

/-- Completes a match of the tail of the pattern `\(\s*(\d+)%\s*\)` right
after an opening parenthesis (ASCII character classes; esptool output is
ASCII).  The greedy scan is exact because adjacent pieces of the regex
have disjoint character classes, so the regex engine never backtracks. -/
def matchAfterParen (cs : List Char) : Option Nat :=
  let afterWs := cs.dropWhile pySpace
  let ds := afterWs.takeWhile Char.isDigit
  let afterDs := afterWs.dropWhile Char.isDigit
  if ds.isEmpty then none
  else
    match afterDs with
    | '%' :: rest =>
        match rest.dropWhile pySpace with
        | ')' :: _ => some (ds.foldl (fun acc c => acc * 10 + digitVal c) 0)
        | _ => none
    | _ => none

/-- Models re.search(r"\(\s*(\d+)%\s*\)", line): the leftmost position
where the pattern matches wins; a pattern match must begin at a literal
opening parenthesis. -/
def searchPercent : List Char → Option Nat
  | [] => none
  | '(' :: rest =>
      match matchAfterParen rest with
      | some n => some n
      | none => searchPercent rest
  | _ :: rest => searchPercent rest

/-- The percentage the write loop extracts from one line of write_flash
output: int(m.group(1)), with no clamping in the source. -/
def percentOfLine (line : String) : Option Nat := searchPercent line.data

/-- The progress events emitted for a stream of write_flash output lines,
in stream order; lines without a match emit nothing. -/
def progressEvents (lines : List String) : List Nat := lines.filterMap percentOfLine

/-! ## Port enumeration -/

/-- Python string ≤, lexicographic by code point, as a boolean on the
underlying character lists. -/
def lexLe : List Char → List Char → Bool
  | [], _ => true
  | _ :: _, [] => false
  | a :: as, b :: bs =>
      if a.toNat < b.toNat then true
      else if b.toNat < a.toNat then false
      else lexLe as bs

/-- Python's `s <= t` on strings. -/
def strLe (s t : String) : Bool := lexLe s.data t.data

/-- `strLe` as a relation, for sortedness statements. -/
def strLeP (s t : String) : Prop := strLe s t = true

instance : DecidableRel strLeP := fun s t => inferInstanceAs (Decidable (strLe s t = true))

/-- Whether the first character list is an initial segment of the second. -/
def prefixChars : List Char → List Char → Bool
  | [], _ => true
  | _ :: _, [] => false
  | p :: ps, c :: cs => p == c && prefixChars ps cs

/-- Which paths the shell pattern `pre*` matches: those starting with `pre`
(the patterns this program globs contain no other metacharacters). -/
def globMatch (pre path : String) : Bool := prefixChars pre.data path.data

/-- Models list_ports(): sorted(glob("/dev/ttyUSB*") + glob("/dev/ttyACM*")),
over a model filesystem given as the list of device nodes in whatever
order the OS enumerates them. -/
def list_ports (fs : List String) : List String :=
  List.insertionSort strLeP
    (fs.filter (globMatch "/dev/ttyUSB") ++ fs.filter (globMatch "/dev/ttyACM"))

/-! ## External tool invocations -/

/-- Exit behavior of one external tool subprocess invocation:
it launched and exited with a code, or it failed to launch
(OSError/FileNotFoundError raised by subprocess before any exit code). -/
inductive ToolOutcome
  | exited (code : Nat)
  | noLaunch
deriving DecidableEq

/-- Outcome of the probe's check_output call (5 second timeout):
it returned output (exit 0), raised CalledProcessError (non-zero exit),
raised TimeoutExpired, or raised some other exception (e.g. launch
failure). -/
inductive ProbeOutcome
  | ok (output : String)
  | nonzero (output : String)
  | timeout
  | err
deriving DecidableEq

/-- Models FlashApp.probe_esp: true exactly when check_output returned,
i.e. the identification command exited 0 within the timeout; every
exception path returns False. -/
def probe_esp : ProbeOutcome → Bool
  | .ok _ => true
  | _ => false

/-- Argument list of an esptool invocation built by this program. -/
def esptoolArgs (port baud : String) (op : List String) : List String :=
  ["python3", "-m", "esptool", "--chip", "esp32", "--port", port, "--baud", baud] ++ op

/-- The probe command (probe_esp). -/
def probeCmd (port baud : String) : List String := esptoolArgs port baud ["chip_id"]

/-- The erase-stage command (flash_esp32). -/
def eraseCmd (port baud : String) : List String := esptoolArgs port baud ["erase_flash"]

/-- The write-stage command (flash_esp32). -/
def writeCmd (port baud bin : String) : List String :=
  esptoolArgs port baud ["write_flash", "-z", "0x0", bin]

/-- The reset-stage command (reset_esp). -/
def resetCmd (port baud : String) : List String := esptoolArgs port baud ["run"]

/-- The value of the `--baud` argument of any esptool command line built
by this program (it is always the ninth element). -/
def cmdBaud (args : List String) : Option String := args.get? 8

/-- Observable events of one run, in order: a subprocess invocation was
attempted with the given argument list, a progress value was extracted
from a write-stage output line, reset_esp logged success or failure, the
flash counter was incremented, and the job reported success ("Flash
complete"), failure ("Flash failed", only for CalledProcessError), or an
uncaught exception escaped the worker thread. -/
inductive Ev
  | cmd (args : List String)
  | progress (percent : Nat)
  | resetOk
  | resetFail
  | counterInc
  | jobSucceeded
  | jobFailed
  | crashed
deriving DecidableEq

/-! ## Application state -/

/-- The mutable state flash.py keeps: the in-memory config dict `cfg`, the
on-disk settings.json contents, the module-level `BAUD` string fixed when
the module loaded, the selected port `self.PORT`, the enabled state of the
Flash and Reset buttons, the flash counter, which baud the last
negotiation confirmed (None when it failed), how many flash worker
threads have been started, and whether a worker is currently running. -/
structure AppState where
  cfg : List (String × JVal)
  disk : String
  BAUD : String
  port : Option String
  flashEnabled : Bool
  resetEnabled : Bool
  flashCount : Int
  commOKBaud : Option String
  spawned : Nat
  active : Bool
deriving DecidableEq

/-- Models the module-load assignment BAUD = str(cfg.get("baud", 1152000)).
Note the default really is 1152000 in the source. -/
def loadBAUD (cfg : List (String × JVal)) : String :=
  match cfgGet "baud" cfg with
  | some (.num n) => toString n
  | some (.str s) => s
  | none => toString (1152000 : Int)

/-- Models update_config(key, value): mutate the in-memory record, then
rewrite settings.json in place with the whole serialized record. -/
def update_config (s : AppState) (k : String) (v : JVal) : AppState :=
  let cfg' := updateKey s.cfg k v
  { s with cfg := cfg', disk := dumpCfg cfg' }

/-- Models FlashApp.initialize_comm, with the device's response to a probe
at each baud supplied as `pr`.  No port: report the error and disable the
Flash button.  Otherwise probe at the module-level BAUD; on success enable
the Flash button.  On failure probe once more at the hardcoded fallback
"115200"; on success persist baud 115200 to the config and enable the
Flash button; otherwise disable it.  Returns the new state and the probe
invocations attempted. -/
def initialize_comm (pr : String → ProbeOutcome) (s : AppState) : AppState × List Ev :=
  match s.port with
  | none => ({ s with flashEnabled := false, commOKBaud := none }, [])
  | some p =>
    if probe_esp (pr s.BAUD) then
      ({ s with flashEnabled := true, commOKBaud := some s.BAUD },
       [Ev.cmd (probeCmd p s.BAUD)])
    else if probe_esp (pr "115200") then
      let s' := update_config s "baud" (JVal.num 115200)
      ({ s' with flashEnabled := true, commOKBaud := some "115200" },
       [Ev.cmd (probeCmd p s.BAUD), Ev.cmd (probeCmd p "115200")])
    else
      ({ s with flashEnabled := false, commOKBaud := none },
       [Ev.cmd (probeCmd p s.BAUD), Ev.cmd (probeCmd p "115200")])

/-- Models FlashApp.start_flash: disable the Flash and Reset buttons and
start a new worker thread running flash_esp32.  The source contains no
check of whether a worker is already active: `spawned` counts worker
threads started, `active` records that one is running. -/
def start_flash (s : AppState) : AppState :=
  { s with flashEnabled := false, resetEnabled := false,
           spawned := s.spawned + 1, active := true }

/-- One run's external world: the exit behavior of each stage's tool
invocation, the write stage's streamed output lines, and the device's
response to post-flash probes. -/
structure Runner where
  erase : ToolOutcome
  write : ToolOutcome
  writeLines : List String
  reset : ToolOutcome
  probe : String → ProbeOutcome

/-- Models FlashApp.reset_esp when a port is selected: invoke esptool run;
a zero exit logs "Hardware reset successful", and every exception
(non-zero exit or launch failure) is caught inside reset_esp and only
logged, so reset_esp never propagates failure to its caller. -/
def reset_esp_events (r : Runner) (port baud : String) : List Ev :=
  Ev.cmd (resetCmd port baud) ::
    (match r.reset with
     | .exited 0 => [Ev.resetOk]
     | _ => [Ev.resetFail])

/-- Models FlashApp.flash_esp32, the body run by the worker thread:
erase (subprocess.run with check=True), write (Popen, the progress loop
over stdout, then wait and raise on non-zero), reset_esp, initialize_comm,
then increment and save the counter and report success.  Only
subprocess.CalledProcessError is caught (job reported failed); any other
exception, such as a stage failing to launch, escapes the thread
(crashed).  The finally block re-enables the Reset button either way.
With no port selected, building the argument list with None makes
subprocess raise TypeError before any invocation. -/
def flash_esp32 (r : Runner) (bin : String) (s : AppState) : AppState × List Ev :=
  match s.port with
  | none =>
      ({ s with resetEnabled := true, active := false }, [Ev.crashed])
  | some port =>
    match r.erase with
    | .noLaunch =>
        ({ s with resetEnabled := true, active := false },
         [Ev.cmd (eraseCmd port s.BAUD), Ev.crashed])
    | .exited ec =>
      if ec ≠ 0 then
        ({ s with resetEnabled := true, active := false },
         [Ev.cmd (eraseCmd port s.BAUD), Ev.jobFailed])
      else
        match r.write with
        | .noLaunch =>
            ({ s with resetEnabled := true, active := false },
             [Ev.cmd (eraseCmd port s.BAUD), Ev.cmd (writeCmd port s.BAUD bin), Ev.crashed])
        | .exited wc =>
          let progEvs := (progressEvents r.writeLines).map Ev.progress
          if wc ≠ 0 then
            ({ s with resetEnabled := true, active := false },
             Ev.cmd (eraseCmd port s.BAUD) :: Ev.cmd (writeCmd port s.BAUD bin) ::
               (progEvs ++ [Ev.jobFailed]))
          else
            let ic := initialize_comm r.probe s
            ({ ic.1 with flashCount := ic.1.flashCount + 1,
                         resetEnabled := true, active := false },
             Ev.cmd (eraseCmd port s.BAUD) :: Ev.cmd (writeCmd port s.BAUD bin) ::
               (progEvs ++ reset_esp_events r port s.BAUD ++ ic.2 ++
                 [Ev.counterInc, Ev.jobSucceeded]))

/-- Sequential flash jobs: run flash_esp32 once per runner, threading the
application state through. -/
def runJobs (bin : String) (rs : List Runner) (s : AppState) : AppState :=
  rs.foldl (fun st r => (flash_esp32 r bin st).1) s

/-! ## Concrete fixtures used by witnesses and counterexamples -/

/-- A concrete settings.json record. -/
def cfg0 : List (String × JVal) :=
  [("bin", .str "firmware.bin"), ("baud", .num 921600),
   ("count_file", .str "flash_count.txt"), ("port", .str "/dev/ttyUSB0")]

/-- A concrete application state right after startup with cfg0 loaded. -/
def S0 : AppState :=
  { cfg := cfg0, disk := dumpCfg cfg0, BAUD := loadBAUD cfg0,
    port := some "/dev/ttyUSB0", flashEnabled := true, resetEnabled := true,
    flashCount := 0, commOKBaud := none, spawned := 0, active := false }

/-- A device that answers no probe. -/
def probeNone : String → ProbeOutcome := fun _ => ProbeOutcome.err

/-- A device that answers probes only at 115200 baud. -/
def probeAt115200 : String → ProbeOutcome := fun b =>
  if b = "115200" then ProbeOutcome.ok "Chip is ESP32" else ProbeOutcome.nonzero "A fatal error occurred"

/-- A run in which every stage exits 0. -/
def Rgood : Runner :=
  { erase := .exited 0, write := .exited 0, writeLines := [], reset := .exited 0,
    probe := probeNone }

/-- A run in which only the reset stage fails (exit 1). -/
def RresetFail : Runner := { Rgood with reset := .exited 1 }

/-- A run in which the erase stage fails (exit 1). -/
def ReraseFail : Runner := { Rgood with erase := .exited 1 }

/-- A run in which the write stage fails (exit 1). -/
def RwriteFail : Runner := { Rgood with write := .exited 1 }

/-- A run in which the write stage fails to launch. -/
def RwriteNoLaunch : Runner := { Rgood with write := .noLaunch }

/-- A run in which the reset stage fails to launch. -/
def RresetNoLaunch : Runner := { Rgood with reset := .noLaunch }

/-- A concrete state in which a flash job is currently active. -/
def Sactive : AppState := { S0 with active := true }

/-- Number of counter increments recorded in a trace. -/
def countInc : List Ev → Nat
  | [] => 0
  | e :: rest => (if e = Ev.counterInc then 1 else 0) + countInc rest

/-! ## Helper lemmas: config record -/

/-- Updating a key stores the given value at that key. -/
theorem cfgGet_updateKey_same (cfg : List (String × JVal)) (k : String) (v : JVal) :
    cfgGet k (updateKey cfg k v) = some v := by
  induction cfg with
  | nil => simp [updateKey, cfgGet]
  | cons kv rest ih =>
    obtain ⟨a, b⟩ := kv
    by_cases h : a = k
    · subst h; simp [updateKey, cfgGet]
    · simp [updateKey, cfgGet, h, ih]

/-- Updating a key leaves every other key's value unchanged. -/
theorem cfgGet_updateKey_other (cfg : List (String × JVal)) (k : String) (v : JVal)
    (k' : String) (h : k' ≠ k) :
    cfgGet k' (updateKey cfg k v) = cfgGet k' cfg := by
  induction cfg with
  | nil =>
    have : k ≠ k' := fun hh => h hh.symm
    simp [updateKey, cfgGet, this]
  | cons kv rest ih =>
    obtain ⟨a, b⟩ := kv
    by_cases hak : a = k
    · subst hak
      have : a ≠ k' := fun hh => h hh.symm
      simp [updateKey, cfgGet, this]
    · by_cases hak' : a = k'
      · subst hak'; simp [updateKey, cfgGet, hak]
      · simp [updateKey, cfgGet, hak, hak', ih]

/-! ## Helper lemmas: strip -/

/-- Dropping a prefix of failing elements twice is the same as once. -/
theorem dropWhile_dropWhile (p : α → Bool) (l : List α) :
    (l.dropWhile p).dropWhile p = l.dropWhile p := by
  induction l with
  | nil => rfl
  | cons c cs ih =>
    by_cases h : p c
    · simp [List.dropWhile_cons, h, ih]
    · simp [List.dropWhile_cons, h]

/-- The head surviving dropWhile fails the predicate. -/
theorem dropWhile_head_false {p : α → Bool} :
    ∀ {l : List α} {c : α} {cs : List α}, l.dropWhile p = c :: cs → p c = false := by
  intro l
  induction l with
  | nil => intro c cs h; simp [List.dropWhile] at h
  | cons a t ih =>
    intro c cs h
    by_cases ha : p a
    · rw [List.dropWhile_cons_of_pos ha] at h; exact ih h
    · rw [List.dropWhile_cons_of_neg ha] at h
      cases h
      simpa using ha

/-- dropWhile either empties the list or keeps its last element. -/
theorem dropWhile_getLast? (p : α → Bool) :
    ∀ l : List α,
      l.dropWhile p = [] ∨
        (l.dropWhile p ≠ [] ∧ (l.dropWhile p).getLast? = l.getLast?) := by
  intro l
  induction l with
  | nil => left; rfl
  | cons a t ih =>
    by_cases ha : p a
    · rw [List.dropWhile_cons_of_pos ha]
      rcases ih with h | ⟨hne, hlast⟩
      · left; exact h
      · right
        refine ⟨hne, ?_⟩
        rw [hlast]
        have ht : t ≠ [] := by
          intro he; subst he; simp [List.dropWhile] at hne
        cases t with
        | nil => exact absurd rfl ht
        | cons b t' => rw [List.getLast?_cons_cons]
    · rw [List.dropWhile_cons_of_neg ha]
      right
      exact ⟨by simp, rfl⟩

/-- Stripping both ends is idempotent. -/
theorem stripChars_idem (l : List Char) : stripChars (stripChars l) = stripChars l := by
  unfold stripChars
  set a := l.dropWhile pySpace with ha
  set r := a.reverse.dropWhile pySpace with hr
  have h1 : r.reverse.dropWhile pySpace = r.reverse := by
    cases hc : r.reverse with
    | nil => simp
    | cons c t =>
      have hcfalse : pySpace c = false := by
        rcases dropWhile_getLast? pySpace a.reverse with h0 | ⟨hne, hlast⟩
        · rw [← hr] at h0; rw [h0] at hc; simp at hc
        · rw [← hr] at hne hlast
          have hhead : r.reverse.head? = some c := by rw [hc]; rfl
          rw [List.head?_reverse, hlast, List.getLast?_reverse] at hhead
          cases hca : a with
          | nil => rw [hca] at hhead; simp at hhead
          | cons x xs =>
            rw [hca] at hhead
            simp at hhead
            subst hhead
            exact dropWhile_head_false (ha ▸ hca : l.dropWhile pySpace = x :: xs)
      rw [List.dropWhile_cons_of_neg (by simp [hcfalse])]
  rw [h1, List.reverse_reverse, hr, dropWhile_dropWhile]

/-- int(s.strip()) parses exactly what int(s) parses: int() ignores
surrounding whitespace itself. -/
theorem pyInt_pyStrip (s : String) : pyInt (pyStrip s) = pyInt s := by
  show pyInt ⟨stripChars s.data⟩ = pyInt s
  unfold pyInt
  rw [show (String.mk (stripChars s.data)).data = stripChars s.data from rfl,
      stripChars_idem]

/-! ## Helper lemmas: the Python string order -/

/-- Characters with equal code points are equal. -/
theorem char_eq_of_toNat_eq {a b : Char} (h : a.toNat = b.toNat) : a = b := by
  apply Char.ext
  exact UInt32.ext h

/-- lexLe is total. -/
theorem lexLe_total : ∀ as bs : List Char, lexLe as bs = true ∨ lexLe bs as = true := by
  intro as
  induction as with
  | nil => intro bs; left; rfl
  | cons a as ih =>
    intro bs
    cases bs with
    | nil => right; rfl
    | cons b bs' =>
      rcases Nat.lt_trichotomy a.toNat b.toNat with h | h | h
      · left; simp [lexLe, h]
      · rcases ih bs' with h2 | h2
        · left; simp [lexLe, h, h2]
        · right; simp [lexLe, h, h2]
      · right; simp [lexLe, h]

/-- lexLe is transitive. -/
theorem lexLe_trans :
    ∀ as bs cs : List Char,
      lexLe as bs = true → lexLe bs cs = true → lexLe as cs = true := by
  intro as
  induction as with
  | nil => intro bs cs h1 h2; rfl
  | cons a as ih =>
    intro bs cs h1 h2
    cases bs with
    | nil => simp [lexLe] at h1
    | cons b bs' =>
      cases cs with
      | nil => simp [lexLe] at h2
      | cons c cs' =>
        rcases Nat.lt_trichotomy a.toNat b.toNat with hab | hab | hab
        · rcases Nat.lt_trichotomy b.toNat c.toNat with hbc | hbc | hbc
          · simp [lexLe, Nat.lt_trans hab hbc]
          · simp [lexLe, hbc ▸ hab]
          · exfalso; simp [lexLe, hbc, Nat.lt_asymm hbc] at h2
        · rcases Nat.lt_trichotomy b.toNat c.toNat with hbc | hbc | hbc
          · simp [lexLe, hab ▸ hbc]
          · have hac : a.toNat = c.toNat := hab.trans hbc
            simp only [lexLe, hab, lt_self_iff_false, if_false] at h1
            simp only [lexLe, hbc, lt_self_iff_false, if_false] at h2
            simp only [lexLe, hac, lt_self_iff_false, if_false]
            exact ih bs' cs' h1 h2
          · exfalso; simp [lexLe, hbc, Nat.lt_asymm hbc] at h2
        · exfalso; simp [lexLe, hab, Nat.lt_asymm hab] at h1

/-- lexLe is antisymmetric. -/
theorem lexLe_antisymm :
    ∀ as bs : List Char, lexLe as bs = true → lexLe bs as = true → as = bs := by
  intro as
  induction as with
  | nil =>
    intro bs h1 h2
    cases bs with
    | nil => rfl
    | cons b bs' => simp [lexLe] at h2
  | cons a as ih =>
    intro bs h1 h2
    cases bs with
    | nil => simp [lexLe] at h1
    | cons b bs' =>
      rcases Nat.lt_trichotomy a.toNat b.toNat with hab | hab | hab
      · exfalso; simp [lexLe, hab, Nat.lt_asymm hab] at h2
      · have hab' : a = b := char_eq_of_toNat_eq hab
        subst hab'
        simp only [lexLe, lt_self_iff_false, if_false] at h1 h2
        rw [ih bs' h1 h2]
      · exfalso; simp [lexLe, hab, Nat.lt_asymm hab] at h1

instance : IsTotal String strLeP :=
  ⟨fun s t => by
    unfold strLeP strLe
    exact lexLe_total s.data t.data⟩

instance : IsTrans String strLeP :=
  ⟨fun a b c h1 h2 => by
    unfold strLeP strLe at *
    exact lexLe_trans a.data b.data c.data h1 h2⟩

instance : IsAntisymm String strLeP :=
  ⟨fun a b h1 h2 => by
    unfold strLeP strLe at h1 h2
    have hd := lexLe_antisymm a.data b.data h1 h2
    cases a; cases b
    exact congrArg String.mk hd⟩

/-! ## Helper lemmas: negotiation and the flash pipeline -/

/-- initialize_comm never changes the selected port, the module-level BAUD,
or the flash counter. -/
theorem initialize_comm_preserves (pr : String → ProbeOutcome) (s : AppState) :
    (initialize_comm pr s).1.port = s.port ∧
    (initialize_comm pr s).1.BAUD = s.BAUD ∧
    (initialize_comm pr s).1.flashCount = s.flashCount := by
  cases hp : s.port with
  | none => simp [initialize_comm, hp]
  | some p =>
    simp only [initialize_comm, hp, update_config]
    split_ifs <;> simp

/-- The probe loop never records a counter increment. -/
theorem countInc_initialize_comm (pr : String → ProbeOutcome) (s : AppState) :
    countInc (initialize_comm pr s).2 = 0 := by
  cases hp : s.port with
  | none => simp [initialize_comm, hp, countInc]
  | some p =>
    simp only [initialize_comm, hp]
    split_ifs <;> simp [countInc]

/-- Progress events contribute no counter increments. -/
theorem countInc_map_progress (l : List Nat) : countInc (l.map Ev.progress) = 0 := by
  induction l with
  | nil => rfl
  | cons n rest ih => simp [countInc, ih]

/-- countInc distributes over append. -/
theorem countInc_append (l₁ l₂ : List Ev) :
    countInc (l₁ ++ l₂) = countInc l₁ + countInc l₂ := by
  induction l₁ with
  | nil => simp [countInc]
  | cons e rest ih => simp [countInc, ih]; omega

/-- countInc is zero exactly on traces without an increment. -/
theorem countInc_eq_zero_of_not_mem {l : List Ev} (h : Ev.counterInc ∉ l) :
    countInc l = 0 := by
  induction l with
  | nil => rfl
  | cons e rest ih =>
    have he : e ≠ Ev.counterInc := fun heq => h (heq ▸ List.mem_cons_self e rest)
    have hrest : Ev.counterInc ∉ rest := fun hm => h (List.mem_cons_of_mem e hm)
    simp [countInc, he, ih hrest]

/-- Every event the probe loop emits is a subprocess invocation, at the
preferred baud or at the fallback. -/
theorem initialize_comm_cmds (pr : String → ProbeOutcome) (s : AppState) (p : String)
    (hport : s.port = some p) :
    ∀ args, Ev.cmd args ∈ (initialize_comm pr s).2 →
      args = probeCmd p s.BAUD ∨ args = probeCmd p "115200" := by
  intro args hmem
  simp only [initialize_comm, hport] at hmem
  by_cases h1 : probe_esp (pr s.BAUD) = true
  · simp [h1] at hmem; exact Or.inl hmem
  · by_cases h2 : probe_esp (pr "115200") = true
    · simp [h1, h2] at hmem
      tauto
    · simp [h1, h2] at hmem
      tauto

/-- The probe loop emits no counter increments, no job results, and no
reset reports. -/
theorem initialize_comm_no_marks (pr : String → ProbeOutcome) (s : AppState) :
    Ev.counterInc ∉ (initialize_comm pr s).2 ∧
    Ev.jobSucceeded ∉ (initialize_comm pr s).2 ∧
    Ev.jobFailed ∉ (initialize_comm pr s).2 := by
  cases hp : s.port with
  | none => simp [initialize_comm, hp]
  | some p =>
    simp only [initialize_comm, hp]
    split_ifs <;> simp

/-- A cmd event belongs to reset_esp's trace exactly when it is the reset
command. -/
theorem cmd_mem_reset_esp_events (r : Runner) (port baud : String) (args : List String) :
    Ev.cmd args ∈ reset_esp_events r port baud ↔ args = resetCmd port baud := by
  unfold reset_esp_events
  cases hr : r.reset with
  | exited c => cases c <;> simp
  | noLaunch => simp

/-- The trace of a run whose erase stage fails to launch. -/
theorem flash_esp32_trace_eraseNoLaunch (r : Runner) (bin : String) (s : AppState)
    (p : String) (hport : s.port = some p) (he : r.erase = ToolOutcome.noLaunch) :
    (flash_esp32 r bin s).2 = [Ev.cmd (eraseCmd p s.BAUD), Ev.crashed] := by
  simp [flash_esp32, hport, he]

/-- The trace of a run whose erase stage exits non-zero. -/
theorem flash_esp32_trace_eraseFail (r : Runner) (bin : String) (s : AppState)
    (p : String) (ec : Nat) (hport : s.port = some p)
    (he : r.erase = ToolOutcome.exited ec) (hec : ec ≠ 0) :
    (flash_esp32 r bin s).2 = [Ev.cmd (eraseCmd p s.BAUD), Ev.jobFailed] := by
  simp [flash_esp32, hport, he, hec]

/-- The trace of a run whose write stage fails to launch. -/
theorem flash_esp32_trace_writeNoLaunch (r : Runner) (bin : String) (s : AppState)
    (p : String) (hport : s.port = some p) (he : r.erase = ToolOutcome.exited 0)
    (hw : r.write = ToolOutcome.noLaunch) :
    (flash_esp32 r bin s).2 =
      [Ev.cmd (eraseCmd p s.BAUD), Ev.cmd (writeCmd p s.BAUD bin), Ev.crashed] := by
  simp [flash_esp32, hport, he, hw]

/-- The trace of a run whose write stage exits non-zero: the progress
events were already streamed, then the job reports failure. -/
theorem flash_esp32_trace_writeFail (r : Runner) (bin : String) (s : AppState)
    (p : String) (wc : Nat) (hport : s.port = some p)
    (he : r.erase = ToolOutcome.exited 0) (hw : r.write = ToolOutcome.exited wc)
    (hwc : wc ≠ 0) :
    (flash_esp32 r bin s).2 =
      Ev.cmd (eraseCmd p s.BAUD) :: Ev.cmd (writeCmd p s.BAUD bin) ::
        ((progressEvents r.writeLines).map Ev.progress ++ [Ev.jobFailed]) := by
  simp [flash_esp32, hport, he, hw, hwc]

/-- The trace of a run whose erase and write stages exit zero: erase,
write, the streamed progress, the reset attempt, the post-flash probes,
the counter increment, and the success report, in that order. -/
theorem flash_esp32_trace_success (r : Runner) (bin : String) (s : AppState)
    (p : String) (hport : s.port = some p) (he : r.erase = ToolOutcome.exited 0)
    (hw : r.write = ToolOutcome.exited 0) :
    (flash_esp32 r bin s).2 =
      Ev.cmd (eraseCmd p s.BAUD) :: Ev.cmd (writeCmd p s.BAUD bin) ::
        ((progressEvents r.writeLines).map Ev.progress ++ reset_esp_events r p s.BAUD ++
          (initialize_comm r.probe s).2 ++ [Ev.counterInc, Ev.jobSucceeded]) := by
  simp [flash_esp32, hport, he, hw]

/-- Every subprocess invocation the flash worker attempts is one of the
five commands the source builds: erase, write, reset, or one of the two
post-flash probes. -/
theorem flash_esp32_cmds (r : Runner) (bin : String) (s : AppState) (p : String)
    (hport : s.port = some p) :
    ∀ args, Ev.cmd args ∈ (flash_esp32 r bin s).2 →
      args = eraseCmd p s.BAUD ∨ args = writeCmd p s.BAUD bin ∨
      args = resetCmd p s.BAUD ∨ args = probeCmd p s.BAUD ∨ args = probeCmd p "115200" := by
  intro args hmem
  have hic := initialize_comm_cmds r.probe s p hport args
  cases he : r.erase with
  | noLaunch =>
    rw [flash_esp32_trace_eraseNoLaunch r bin s p hport he] at hmem
    simp at hmem
    tauto
  | exited ec =>
    by_cases hec : ec = 0
    · subst hec
      cases hw : r.write with
      | noLaunch =>
        rw [flash_esp32_trace_writeNoLaunch r bin s p hport he hw] at hmem
        simp at hmem
        tauto
      | exited wc =>
        by_cases hwc : wc = 0
        · subst hwc
          rw [flash_esp32_trace_success r bin s p hport he hw] at hmem
          simp [cmd_mem_reset_esp_events] at hmem
          rcases hmem with h | h | h | h
          · tauto
          · tauto
          · tauto
          · exact (hic h).elim (fun h1 => by tauto) (fun h1 => by tauto)
        · rw [flash_esp32_trace_writeFail r bin s p wc hport he hw hwc] at hmem
          simp at hmem
          tauto
    · rw [flash_esp32_trace_eraseFail r bin s p ec hport he hec] at hmem
      simp at hmem
      tauto

/-- The flash worker never changes the selected port or the module-level
BAUD. -/
theorem flash_esp32_preserves (r : Runner) (bin : String) (s : AppState) :
    (flash_esp32 r bin s).1.port = s.port ∧ (flash_esp32 r bin s).1.BAUD = s.BAUD := by
  obtain ⟨hp, hb, _⟩ := initialize_comm_preserves r.probe s
  cases hsp : s.port with
  | none => simp [flash_esp32, hsp]
  | some p =>
    cases he : r.erase with
    | noLaunch => simp [flash_esp32, hsp, he]
    | exited ec =>
      by_cases hec : ec = 0
      · subst hec
        cases hw : r.write with
        | noLaunch => simp [flash_esp32, hsp, he, hw]
        | exited wc =>
          by_cases hwc : wc = 0
          · subst hwc
            simp [flash_esp32, hsp, he, hw, hp, hb]
          · simp [flash_esp32, hsp, he, hw, hwc]
      · simp [flash_esp32, hsp, he, hec]

/-- When the preferred-baud probe fails and the fallback probe succeeds,
initialize_comm enables the Flash button, records the fallback baud as
confirmed, persists baud 115200 to the config record and to disk, and
probes in the order preferred-then-fallback. -/
theorem initialize_comm_fallback (pr : String → ProbeOutcome) (s : AppState) (p : String)
    (hport : s.port = some p)
    (hA : probe_esp (pr s.BAUD) = false)
    (hB : probe_esp (pr "115200") = true) :
    (initialize_comm pr s).1.flashEnabled = true ∧
    (initialize_comm pr s).1.commOKBaud = some "115200" ∧
    cfgGet "baud" (initialize_comm pr s).1.cfg = some (JVal.num 115200) ∧
    (initialize_comm pr s).1.disk = dumpCfg (initialize_comm pr s).1.cfg ∧
    loadBAUD (initialize_comm pr s).1.cfg = "115200" ∧
    (initialize_comm pr s).2 =
      [Ev.cmd (probeCmd p s.BAUD), Ev.cmd (probeCmd p "115200")] := by
  have hA' : ¬ probe_esp (pr s.BAUD) = true := by simp [hA]
  refine ⟨?_, ?_, ?_, ?_, ?_, ?_⟩
  · simp [initialize_comm, hport, hA', hB]
  · simp [initialize_comm, hport, hA', hB]
  · simp [initialize_comm, hport, hA', hB, update_config,
      cfgGet_updateKey_same s.cfg "baud" (JVal.num 115200)]
  · simp [initialize_comm, hport, hA', hB, update_config]
  · simp only [initialize_comm, hport, hA', hB, if_true, if_false, update_config]
    simp [loadBAUD, cfgGet_updateKey_same s.cfg "baud" (JVal.num 115200)]
    decide
  · simp [initialize_comm, hport, hA', hB]

/-- initialize_comm only ever enables the Flash button after a probe
confirmed a response, at the preferred baud or at the fallback. -/
theorem initialize_comm_success_requires_probe (pr : String → ProbeOutcome) (s : AppState)
    (hen : (initialize_comm pr s).1.flashEnabled = true) :
    probe_esp (pr s.BAUD) = true ∨ probe_esp (pr "115200") = true := by
  by_cases h1 : probe_esp (pr s.BAUD) = true
  · exact Or.inl h1
  · by_cases h2 : probe_esp (pr "115200") = true
    · exact Or.inr h2
    · exfalso
      cases hp2 : s.port with
      | none => simp [initialize_comm, hp2] at hen
      | some q => simp [initialize_comm, hp2, h1, h2] at hen

/-- A fully launching run with erase and write exiting zero increments the
flash counter by exactly one, whatever the reset stage does. -/
theorem flash_esp32_count_success (r : Runner) (bin : String) (s : AppState) (p : String)
    (hport : s.port = some p) (he : r.erase = ToolOutcome.exited 0)
    (hw : r.write = ToolOutcome.exited 0) :
    (flash_esp32 r bin s).1.flashCount = s.flashCount + 1 := by
  obtain ⟨_, _, hc⟩ := initialize_comm_preserves r.probe s
  simp [flash_esp32, hport, he, hw, hc]

/-! ## Claim C7: config update -/

/-- Claim C7 counterexample: update_config does not replace settings.json
atomically — opening the file for writing truncates it first, so the empty
(truncated) file is an observable on-disk state that is neither the old
nor the new record; an interruption at that point leaves a truncated
config file. -/
theorem c7_counterexample :
    atomicReplace (dumpCfg cfg0) (dumpCfg (updateKey cfg0 "baud" (JVal.num 115200)))
        (update_config_disk_states cfg0 "baud" (JVal.num 115200)) = false ∧
    "" ∈ update_config_disk_states cfg0 "baud" (JVal.num 115200) ∧
    dumpCfg cfg0 ≠ "" := by decide

/-- Claim C7 (amended): update_config performs a read-modify-write of the
whole structured record — the updated key holds the new value and every
other key is unchanged — but the file is rewritten in place: the write
starts from a truncated (empty) file and only ends at the full new
record, so the replacement is not atomic. -/
theorem c7_update_config (cfg : List (String × JVal)) (k : String) (v : JVal)
    (k' : String) (h : k' ≠ k) :
    cfgGet k' (updateKey cfg k v) = cfgGet k' cfg ∧
    cfgGet k (updateKey cfg k v) = some v ∧
    (update_config_disk_states cfg k v).head? = some "" ∧
    (update_config_disk_states cfg k v).getLast? = some (dumpCfg (updateKey cfg k v)) :=
  ⟨cfgGet_updateKey_other cfg k v k' h, cfgGet_updateKey_same cfg k v, rfl, rfl⟩

/-- Witness at a concrete record and keys. -/
theorem c7_witness :
    cfgGet "bin" (updateKey cfg0 "baud" (JVal.num 115200)) = cfgGet "bin" cfg0 ∧
    cfgGet "baud" (updateKey cfg0 "baud" (JVal.num 115200)) = some (JVal.num 115200) := by
  have h := c7_update_config cfg0 "baud" (JVal.num 115200) "bin" (by decide)
  exact ⟨h.1, h.2.1⟩

/-! ## Claim C8: counter load resilience -/

/-- Claim C8: load_count returns 0 (rather than failing) for a missing
counter file and for any file whose content does not parse as an integer. -/
theorem c8_load_count (content : String) (h : pyInt content = none) :
    load_count none = 0 ∧ load_count (some content) = 0 := by
  refine ⟨rfl, ?_⟩
  show (pyInt (pyStrip content)).getD 0 = 0
  rw [pyInt_pyStrip, h]
  rfl

/-- Witness on concrete corrupt content. -/
theorem c8_witness :
    load_count none = 0 ∧ load_count (some "not a number") = 0 :=
  c8_load_count "not a number" (by decide)

/-! ## Claim C9: port enumeration -/

/-- Claim C9: list_ports is deterministic for a fixed attached-device set
(independent of the enumeration order the OS reports), returns the
candidate paths sorted ascending lexicographically, and returns the empty
sequence when no serial device node is attached. -/
theorem c9_list_ports (fs fs' : List String) (h : fs.Perm fs') :
    list_ports fs = list_ports fs' ∧
    List.Sorted strLeP (list_ports fs) ∧
    list_ports [] = [] ∧
    ((∀ x ∈ fs, globMatch "/dev/ttyUSB" x = false ∧ globMatch "/dev/ttyACM" x = false) →
      list_ports fs = []) := by
  refine ⟨?_, List.sorted_insertionSort strLeP _, rfl, ?_⟩
  · have hbase :
        (fs.filter (globMatch "/dev/ttyUSB") ++ fs.filter (globMatch "/dev/ttyACM")).Perm
          (fs'.filter (globMatch "/dev/ttyUSB") ++ fs'.filter (globMatch "/dev/ttyACM")) :=
      (h.filter _).append (h.filter _)
    exact List.eq_of_perm_of_sorted
      ((List.perm_insertionSort strLeP _).trans
        (hbase.trans (List.perm_insertionSort strLeP _).symm))
      (List.sorted_insertionSort strLeP _) (List.sorted_insertionSort strLeP _)
  · intro hall
    unfold list_ports
    rw [List.filter_eq_nil_iff.mpr (fun a ha => by simp [(hall a ha).1]),
        List.filter_eq_nil_iff.mpr (fun a ha => by simp [(hall a ha).2])]
    rfl

/-- Witness: a concrete device set, permuted. -/
theorem c9_witness :
    list_ports ["/dev/ttyUSB1", "/dev/ttyACM0", "/dev/video0", "/dev/ttyUSB0"] =
      list_ports ["/dev/video0", "/dev/ttyUSB0", "/dev/ttyUSB1", "/dev/ttyACM0"] ∧
    list_ports ["/dev/ttyUSB1", "/dev/ttyACM0", "/dev/video0", "/dev/ttyUSB0"] =
      ["/dev/ttyACM0", "/dev/ttyUSB0", "/dev/ttyUSB1"] :=
  ⟨(c9_list_ports ["/dev/ttyUSB1", "/dev/ttyACM0", "/dev/video0", "/dev/ttyUSB0"]
      ["/dev/video0", "/dev/ttyUSB0", "/dev/ttyUSB1", "/dev/ttyACM0"] (by decide)).1,
   by decide⟩

/-! ## Claim C10: start-flash while active -/

/-- Claim C10 counterexample: with a job active, triggering start_flash is
not a no-op — the state changes and a second worker (and hence a second
tool subprocess sequence) is spawned. -/
theorem c10_counterexample :
    Sactive.active = true ∧
    start_flash Sactive ≠ Sactive ∧
    (start_flash Sactive).spawned = Sactive.spawned + 1 := by decide

/-- Claim C10 (amended): start_flash performs no active-job check: even
while a job is active it disables the Flash and Reset buttons and spawns
another flash worker, so the trigger starts a second subprocess sequence
instead of being a no-op.  (Under normal operation a second trigger is
prevented only by the shell keeping the Flash button disabled while a job
runs.) -/
theorem c10_start_flash (s : AppState) (h : s.active = true) :
    s.active = true ∧
    (start_flash s).spawned = s.spawned + 1 ∧
    (start_flash s).flashEnabled = false ∧
    (start_flash s).resetEnabled = false ∧
    (start_flash s).active = true ∧
    start_flash s ≠ s := by
  refine ⟨h, rfl, rfl, rfl, rfl, ?_⟩
  intro heq
  have hsp : (start_flash s).spawned = s.spawned := congrArg AppState.spawned heq
  simp [start_flash] at hsp

/-- Witness at the concrete active state. -/
theorem c10_witness :
    (start_flash Sactive).spawned = Sactive.spawned + 1 ∧ start_flash Sactive ≠ Sactive :=
  ⟨(c10_start_flash Sactive rfl).2.1, (c10_start_flash Sactive rfl).2.2.2.2.2⟩

/-! ## Claim C5: baud negotiation -/

/-- Claim C5: negotiation probes the preferred (config) baud first; when
that probe fails and the probe at the fallback baud 115200 succeeds, it
reports success at the fallback baud, persists baud 115200 to the config
record and its on-disk serialization (so a future module load starts at
115200), and it probes in the order preferred-then-fallback.  Moreover
negotiation never reports success unless some probe confirmed a response. -/
theorem c5_negotiation (pr : String → ProbeOutcome) (s : AppState) (p : String)
    (hport : s.port = some p)
    (hA : probe_esp (pr s.BAUD) = false)
    (hB : probe_esp (pr "115200") = true) :
    (initialize_comm pr s).1.flashEnabled = true ∧
    (initialize_comm pr s).1.commOKBaud = some "115200" ∧
    cfgGet "baud" (initialize_comm pr s).1.cfg = some (JVal.num 115200) ∧
    (initialize_comm pr s).1.disk = dumpCfg (initialize_comm pr s).1.cfg ∧
    loadBAUD (initialize_comm pr s).1.cfg = "115200" ∧
    (initialize_comm pr s).2 = [Ev.cmd (probeCmd p s.BAUD), Ev.cmd (probeCmd p "115200")] ∧
    (∀ (pr2 : String → ProbeOutcome) (s2 : AppState),
        (initialize_comm pr2 s2).1.flashEnabled = true →
        probe_esp (pr2 s2.BAUD) = true ∨ probe_esp (pr2 "115200") = true) := by
  obtain ⟨h1, h2, h3, h4, h5, h6⟩ := initialize_comm_fallback pr s p hport hA hB
  exact ⟨h1, h2, h3, h4, h5, h6,
    fun pr2 s2 hen => initialize_comm_success_requires_probe pr2 s2 hen⟩

/-- Witness: the config baud is 921600, the device only answers at 115200. -/
theorem c5_witness :
    (initialize_comm probeAt115200 S0).1.flashEnabled = true ∧
    (initialize_comm probeAt115200 S0).1.commOKBaud = some "115200" ∧
    cfgGet "baud" (initialize_comm probeAt115200 S0).1.cfg = some (JVal.num 115200) := by
  have h := c5_negotiation probeAt115200 S0 "/dev/ttyUSB0" rfl (by decide) (by decide)
  exact ⟨h.1, h.2.1, h.2.2.1⟩

/-! ## Claim C6: stale module-level BAUD after fallback negotiation -/

/-- Claim C6: after negotiation falls back to 115200 (persisting 115200 to
the config record), the module-level BAUD is unchanged, and every tool
invocation of a flash job run in the same session — erase, write, reset,
and even the preferred-baud probe — still passes the originally loaded
config baud on its command line, not the persisted fallback baud. -/
theorem c6_stale_baud (pr : String → ProbeOutcome) (s : AppState) (p : String)
    (hport : s.port = some p) (hne : s.BAUD ≠ "115200")
    (hA : probe_esp (pr s.BAUD) = false) (hB : probe_esp (pr "115200") = true)
    (r : Runner) (bin : String) :
    (initialize_comm pr s).1.BAUD = s.BAUD ∧
    cfgGet "baud" (initialize_comm pr s).1.cfg = some (JVal.num 115200) ∧
    (∀ args, Ev.cmd args ∈ (flash_esp32 r bin (initialize_comm pr s).1).2 →
        args ≠ probeCmd p "115200" → cmdBaud args = some s.BAUD) ∧
    s.BAUD ≠ "115200" := by
  obtain ⟨hp1, hb1, _⟩ := initialize_comm_preserves pr s
  have hfb := initialize_comm_fallback pr s p hport hA hB
  refine ⟨hb1, hfb.2.2.1, ?_, hne⟩
  intro args hmem hnp
  have hport1 : (initialize_comm pr s).1.port = some p := by rw [hp1, hport]
  have hcases := flash_esp32_cmds r bin (initialize_comm pr s).1 p hport1 args hmem
  rw [hb1] at hcases
  rcases hcases with h | h | h | h | h
  · rw [h]; simp [cmdBaud, eraseCmd, esptoolArgs]
  · rw [h]; simp [cmdBaud, writeCmd, esptoolArgs]
  · rw [h]; simp [cmdBaud, resetCmd, esptoolArgs]
  · rw [h]; simp [cmdBaud, probeCmd, esptoolArgs]
  · exact absurd h hnp

/-- Witness: with the concrete baud 921600 in cfg0 and a device that
only answers at 115200, the erase invocation of a subsequent flash job
still carries baud 921600 while the config now says 115200. -/
theorem c6_witness :
    cfgGet "baud" (initialize_comm probeAt115200 S0).1.cfg = some (JVal.num 115200) ∧
    cmdBaud (eraseCmd "/dev/ttyUSB0" (initialize_comm probeAt115200 S0).1.BAUD) =
      some S0.BAUD := by
  have h := c6_stale_baud probeAt115200 S0 "/dev/ttyUSB0" rfl (by decide) (by decide)
      (by decide) Rgood "firmware.bin"
  exact ⟨h.2.1, h.2.2.1 _ (by decide) (by decide)⟩

/-! ## Claim C1: success reporting -/

/-- Claim C1 counterexample: with erase and write exiting zero but the
reset stage exiting 1, the job is still reported as Succeeded ("Flash
complete") and the counter is still incremented — a non-zero reset exit
does not prevent the success report, because reset_esp swallows the
exception. -/
theorem c1_counterexample :
    RresetFail.reset = ToolOutcome.exited 1 ∧
    Ev.jobSucceeded ∈ (flash_esp32 RresetFail "firmware.bin" S0).2 ∧
    (flash_esp32 RresetFail "firmware.bin" S0).1.flashCount = S0.flashCount + 1 := by
  decide

/-- Claim C1 (amended): a FlashJob is reported Succeeded iff the erase and
write invocations both launched and exited zero; the reset stage's outcome
does not affect success reporting — a non-zero reset exit is caught inside
reset_esp, logged, and the job is still reported Succeeded. -/
theorem c1_success_iff (r : Runner) (bin : String) (s : AppState) (p : String)
    (hport : s.port = some p) :
    Ev.jobSucceeded ∈ (flash_esp32 r bin s).2 ↔
      r.erase = ToolOutcome.exited 0 ∧ r.write = ToolOutcome.exited 0 := by
  constructor
  · intro hmem
    cases he : r.erase with
    | noLaunch =>
      rw [flash_esp32_trace_eraseNoLaunch r bin s p hport he] at hmem
      simp at hmem
    | exited ec =>
      by_cases hec : ec = 0
      · subst hec
        cases hw : r.write with
        | noLaunch =>
          rw [flash_esp32_trace_writeNoLaunch r bin s p hport he hw] at hmem
          simp at hmem
        | exited wc =>
          by_cases hwc : wc = 0
          · subst hwc; exact ⟨rfl, rfl⟩
          · rw [flash_esp32_trace_writeFail r bin s p wc hport he hw hwc] at hmem
            simp at hmem
      · rw [flash_esp32_trace_eraseFail r bin s p ec hport he hec] at hmem
        simp at hmem
  · rintro ⟨he, hw⟩
    rw [flash_esp32_trace_success r bin s p hport he hw]
    simp

/-- Witness on a fully successful concrete run. -/
theorem c1_witness :
    Ev.jobSucceeded ∈ (flash_esp32 Rgood "firmware.bin" S0).2 :=
  (c1_success_iff Rgood "firmware.bin" S0 "/dev/ttyUSB0" rfl).mpr ⟨rfl, rfl⟩

/-! ## Claim C2: counter increments -/

/-- Claim C2: for a job whose three stages all exit zero, the counter is
incremented by one, the increment appears exactly once in the trace, and
it occurs strictly after the reset stage reported success, never before;
a job failing at the write stage leaves the counter unchanged and records
no increment; and n sequential successful jobs add exactly n. -/
theorem c2_counter (bin : String) :
    (∀ (r : Runner) (s : AppState) (p : String),
        s.port = some p → r.erase = ToolOutcome.exited 0 →
        r.write = ToolOutcome.exited 0 → r.reset = ToolOutcome.exited 0 →
        (flash_esp32 r bin s).1.flashCount = s.flashCount + 1 ∧
        countInc (flash_esp32 r bin s).2 = 1 ∧
        (∃ pre post, (flash_esp32 r bin s).2 = pre ++ Ev.resetOk :: post ∧
          countInc pre = 0 ∧ countInc post = 1)) ∧
    (∀ (r : Runner) (s : AppState) (p : String) (wc : Nat),
        s.port = some p → r.erase = ToolOutcome.exited 0 →
        r.write = ToolOutcome.exited wc → wc ≠ 0 →
        (flash_esp32 r bin s).1.flashCount = s.flashCount ∧
        countInc (flash_esp32 r bin s).2 = 0) ∧
    (∀ (rs : List Runner) (s : AppState) (p : String),
        s.port = some p →
        (∀ r ∈ rs, r.erase = ToolOutcome.exited 0 ∧ r.write = ToolOutcome.exited 0) →
        (runJobs bin rs s).flashCount = s.flashCount + rs.length) := by
  refine ⟨?_, ?_, ?_⟩
  · intro r s p hport he hw hr
    refine ⟨flash_esp32_count_success r bin s p hport he hw, ?_, ?_⟩
    · rw [flash_esp32_trace_success r bin s p hport he hw]
      simp [reset_esp_events, hr, countInc, countInc_append, countInc_map_progress,
        countInc_initialize_comm]
    · refine ⟨Ev.cmd (eraseCmd p s.BAUD) :: Ev.cmd (writeCmd p s.BAUD bin) ::
          ((progressEvents r.writeLines).map Ev.progress ++ [Ev.cmd (resetCmd p s.BAUD)]),
        (initialize_comm r.probe s).2 ++ [Ev.counterInc, Ev.jobSucceeded], ?_, ?_, ?_⟩
      · rw [flash_esp32_trace_success r bin s p hport he hw]
        simp [reset_esp_events, hr]
      · simp [countInc, countInc_append, countInc_map_progress]
      · simp [countInc_append, countInc_initialize_comm, countInc]
  · intro r s p wc hport he hw hwc
    constructor
    · simp [flash_esp32, hport, he, hw, hwc]
    · rw [flash_esp32_trace_writeFail r bin s p wc hport he hw hwc]
      simp [countInc, countInc_append, countInc_map_progress]
  · intro rs
    induction rs with
    | nil => intro s p hport hall; simp [runJobs]
    | cons r rest ih =>
      intro s p hport hall
      have hr := hall r (by simp)
      have hflash := flash_esp32_count_success r bin s p hport hr.1 hr.2
      have hport' : (flash_esp32 r bin s).1.port = some p := by
        rw [(flash_esp32_preserves r bin s).1, hport]
      have hrest := ih ((flash_esp32 r bin s).1) p hport'
        (fun r' hr' => hall r' (by simp [hr']))
      show (runJobs bin rest (flash_esp32 r bin s).1).flashCount = _
      rw [hrest, hflash]
      simp [List.length_cons]
      ring

/-- Witness on concrete runs. -/
theorem c2_witness :
    (flash_esp32 Rgood "firmware.bin" S0).1.flashCount = S0.flashCount + 1 ∧
    countInc (flash_esp32 Rgood "firmware.bin" S0).2 = 1 ∧
    (flash_esp32 RwriteFail "firmware.bin" S0).1.flashCount = S0.flashCount ∧
    (runJobs "firmware.bin" [Rgood, Rgood, Rgood] S0).flashCount = S0.flashCount + 3 := by
  have h1 := (c2_counter "firmware.bin").1 Rgood S0 "/dev/ttyUSB0" rfl rfl rfl rfl
  have h2 := (c2_counter "firmware.bin").2.1 RwriteFail S0 "/dev/ttyUSB0" 1 rfl rfl rfl
    (by decide)
  have h3 := (c2_counter "firmware.bin").2.2 [Rgood, Rgood, Rgood] S0 "/dev/ttyUSB0" rfl
    (by intro r' hr'; simp at hr'; subst hr'; exact ⟨rfl, rfl⟩)
  exact ⟨h1.1, h1.2.1, h2.1, by simpa using h3⟩

/-! ## Claim C3: progress parsing -/

/-- Claim C3 counterexample: the spec's four test lines do NOT emit
[0, 57, 100] — the line "... (0 %) ..." emits nothing because the source
regex \(\s*(\d+)%\s*\) allows no whitespace between the digits and the
percent sign; moreover values are not clamped to [0,100]: "(150%)" emits
150. -/
theorem c3_counterexample :
    progressEvents ["... (0 %) ...", "...(57%)...", "no percent here", "(100%)"] ≠
      [0, 57, 100] ∧
    percentOfLine "(150%)" = some 150 := by decide

/-- Claim C3 (amended): a line emits a progress event iff it contains an
opening parenthesis, optional whitespace, digits, a percent sign
immediately after the digits, optional whitespace, and a closing
parenthesis; the event carries the parsed integer with no clamping.
Feeding the spec's four lines emits exactly [57, 100] in that order: the
"(0 %)" line (space between digits and %) and the "no percent here" line
emit nothing. -/
theorem c3_progress_events :
    progressEvents ["... (0 %) ...", "...(57%)...", "no percent here", "(100%)"] =
      [57, 100] ∧
    percentOfLine "... (0 %) ..." = none ∧
    percentOfLine "no percent here" = none ∧
    percentOfLine "...(57%)..." = some 57 ∧
    percentOfLine "(100%)" = some 100 ∧
    percentOfLine "( 57 %)" = none ∧
    percentOfLine "( 57%)" = some 57 ∧
    percentOfLine "(150%)" = some 150 := by decide

/-! ## Claim C4: failure aborts the pipeline -/

/-- Claim C4 counterexample: the reset stage's subprocess exits non-zero,
yet the job does not transition to Failed — it still reports success. -/
theorem c4_counterexample :
    RresetFail.reset = ToolOutcome.exited 1 ∧
    Ev.jobFailed ∉ (flash_esp32 RresetFail "firmware.bin" S0).2 := by decide

/-- Claim C4 (amended): a non-zero exit of the erase or write stage
transitions the job directly to Failed with no later stage invoked — in
particular erase exiting 1 reaches Failed without the write invocation
ever being started; a launch failure of the erase or write stage likewise
invokes no later stage and never reaches Succeeded, though it escapes as
an uncaught exception rather than the Failed report.  The reset stage is
the exception: its subprocess failing — by non-zero exit or by failing to
launch — is caught inside reset_esp, so the job never transitions to
Failed on a reset failure and is still reported Succeeded. -/
theorem c4_fail_stops (r : Runner) (bin : String) (s : AppState) (p : String)
    (hport : s.port = some p) :
    (∀ ec, r.erase = ToolOutcome.exited ec → ec ≠ 0 →
        (flash_esp32 r bin s).2 = [Ev.cmd (eraseCmd p s.BAUD), Ev.jobFailed] ∧
        Ev.cmd (writeCmd p s.BAUD bin) ∉ (flash_esp32 r bin s).2) ∧
    (r.erase = ToolOutcome.noLaunch →
        (flash_esp32 r bin s).2 = [Ev.cmd (eraseCmd p s.BAUD), Ev.crashed] ∧
        Ev.jobFailed ∉ (flash_esp32 r bin s).2 ∧
        Ev.jobSucceeded ∉ (flash_esp32 r bin s).2) ∧
    (r.erase = ToolOutcome.exited 0 → r.write = ToolOutcome.noLaunch →
        (flash_esp32 r bin s).2 =
          [Ev.cmd (eraseCmd p s.BAUD), Ev.cmd (writeCmd p s.BAUD bin), Ev.crashed] ∧
        Ev.jobFailed ∉ (flash_esp32 r bin s).2 ∧
        Ev.jobSucceeded ∉ (flash_esp32 r bin s).2 ∧
        Ev.cmd (resetCmd p s.BAUD) ∉ (flash_esp32 r bin s).2) ∧
    (∀ wc, r.erase = ToolOutcome.exited 0 → r.write = ToolOutcome.exited wc → wc ≠ 0 →
        Ev.jobFailed ∈ (flash_esp32 r bin s).2 ∧
        Ev.cmd (resetCmd p s.BAUD) ∉ (flash_esp32 r bin s).2 ∧
        Ev.counterInc ∉ (flash_esp32 r bin s).2) ∧
    (r.erase = ToolOutcome.exited 0 → r.write = ToolOutcome.exited 0 →
        Ev.jobFailed ∉ (flash_esp32 r bin s).2 ∧
        Ev.jobSucceeded ∈ (flash_esp32 r bin s).2) := by
  refine ⟨?_, ?_, ?_, ?_, ?_⟩
  · intro ec he hec
    have ht := flash_esp32_trace_eraseFail r bin s p ec hport he hec
    refine ⟨ht, ?_⟩
    rw [ht]
    simp [eraseCmd, writeCmd, esptoolArgs]
  · intro he
    have ht := flash_esp32_trace_eraseNoLaunch r bin s p hport he
    rw [ht]
    exact ⟨rfl, by simp, by simp⟩
  · intro he hw
    have ht := flash_esp32_trace_writeNoLaunch r bin s p hport he hw
    rw [ht]
    refine ⟨rfl, by simp, by simp, ?_⟩
    simp [resetCmd, eraseCmd, writeCmd, esptoolArgs]
  · intro wc he hw hwc
    have ht := flash_esp32_trace_writeFail r bin s p wc hport he hw hwc
    rw [ht]
    refine ⟨by simp, ?_, by simp⟩
    simp [resetCmd, eraseCmd, writeCmd, esptoolArgs]
  · intro he hw
    have ht := flash_esp32_trace_success r bin s p hport he hw
    have hres : Ev.jobFailed ∉ reset_esp_events r p s.BAUD := by
      unfold reset_esp_events
      cases r.reset with
      | exited c => cases c <;> simp
      | noLaunch => simp
    have hic := (initialize_comm_no_marks r.probe s).2.2
    rw [ht]
    refine ⟨?_, by simp⟩
    intro hmem
    simp at hmem
    rcases hmem with h | h
    · exact hres h
    · exact hic h

/-- Witness: erase exits 1, the job fails, write is never invoked. -/
theorem c4_witness :
    (flash_esp32 ReraseFail "firmware.bin" S0).2 =
      [Ev.cmd (eraseCmd "/dev/ttyUSB0" S0.BAUD), Ev.jobFailed] ∧
    Ev.cmd (writeCmd "/dev/ttyUSB0" S0.BAUD "firmware.bin") ∉
      (flash_esp32 ReraseFail "firmware.bin" S0).2 ∧
    Ev.jobFailed ∉ (flash_esp32 RwriteNoLaunch "firmware.bin" S0).2 ∧
    Ev.jobSucceeded ∈ (flash_esp32 RresetNoLaunch "firmware.bin" S0).2 :=
  ⟨((c4_fail_stops ReraseFail "firmware.bin" S0 "/dev/ttyUSB0" rfl).1 1 rfl (by decide)).1,
   ((c4_fail_stops ReraseFail "firmware.bin" S0 "/dev/ttyUSB0" rfl).1 1 rfl (by decide)).2,
   ((c4_fail_stops RwriteNoLaunch "firmware.bin" S0 "/dev/ttyUSB0" rfl).2.2.1 rfl rfl).2.1,
   ((c4_fail_stops RresetNoLaunch "firmware.bin" S0 "/dev/ttyUSB0" rfl).2.2.2.2 rfl rfl).2⟩

end Flash
